import Mathlib

/-!
Shallow embedding of the zed-ai chat client (src/src/App.tsx): the data model
(Message, provider Config), the transport functions makeGraphQLRequest and
makeRESTRequest, and the sendMessage controller, modelled as pure functions
over an explicit environment carrying the fetch outcomes and clock readings.
-/

namespace ZedAI

/-- Role of a chat message; the source types it as the union 'user' | 'assistant'. -/
inductive Role where
  | user
  | assistant
deriving DecidableEq

/-- interface Message (App.tsx 5-10): {id, role, content, timestamp}. -/
structure Message where
  id : String
  role : Role
  content : String
  timestamp : Nat
deriving DecidableEq

/-- One provider entry of interface Config (App.tsx 12-21): {apiKey, baseUrl}. -/
structure ProviderConfig where
  apiKey : String
  baseUrl : String
deriving DecidableEq

/-- One entry of the errors array of a decoded GraphQL response (App.tsx 60-63). -/
structure GQLError where
  message : String
deriving DecidableEq

/-- A decoded message object inside a choice; the JSON fields may be absent at
runtime even though the TypeScript type declares them, so both are Options. -/
structure ChoiceMessage where
  role? : Option String
  content? : Option String
deriving DecidableEq

/-- One entry of a decoded choices array. -/
structure Choice where
  message? : Option ChoiceMessage
deriving DecidableEq

/-- The decoded chatCompletion object (App.tsx 67-75); its choices field may be
absent in the raw JSON. -/
structure ChatCompletionObj where
  choices? : Option (List Choice)
deriving DecidableEq

/-- interface ChatCompletionData (App.tsx 66-76), with the chatCompletion key
Optional as raw JSON admits. -/
structure ChatCompletionData where
  chatCompletion? : Option ChatCompletionObj
deriving DecidableEq

/-- interface GraphQLResponse (App.tsx 58-64): optional data and errors keys. -/
structure GraphQLResponse where
  data? : Option ChatCompletionData
  errors? : Option (List GQLError)
deriving DecidableEq

/-- The decoded body of a REST chat/completions response: an optional choices
array (the code reads data.choices without a guard). -/
structure RestBody where
  choices? : Option (List Choice)
deriving DecidableEq

/-- Outcome of one fetch call: a network-level rejection, or an HTTP response
with its ok flag, status code and decoded JSON body. -/
inductive FetchOutcome (β : Type) where
  | networkError (msg : String)
  | response (ok : Bool) (status : Nat) (body : β)
deriving DecidableEq

/-- Model of JavaScript String.prototype.trim as the code uses it on the input
buffer: drop leading and trailing whitespace characters. -/
def jsTrim (s : String) : String :=
  ⟨((s.data.dropWhile Char.isWhitespace).reverse.dropWhile Char.isWhitespace).reverse⟩

/-- The fixed fallback content used when no reply content is found (App.tsx 216). -/
def noReplyFallback : String := "抱歉，我没有收到回复"

/-- Builds the synthesized error content of App.tsx 226. -/
def errorWrap (e : String) : String := "抱歉，发生了错误：" ++ e

/-- Message of the TypeError raised by reading .choices on an undefined
chatCompletion (App.tsx 204). -/
def choicesUndefinedError : String :=
  "TypeError: Cannot read properties of undefined (reading 'choices')"

/-- Message of the TypeError raised by indexing an undefined choices array
(App.tsx 216). -/
def indexUndefinedError : String :=
  "TypeError: Cannot read properties of undefined (reading '0')"

/-- makeGraphQLRequest (App.tsx 106-130): throws on a network error, a non-ok
status, or a decoded errors array with length > 0; otherwise returns result.data. -/
def makeGraphQLRequest (o : FetchOutcome GraphQLResponse) :
    Except String (Option ChatCompletionData) :=
  match o with
  | .networkError msg => .error msg
  | .response ok status body =>
    if !ok then .error ("HTTP error! status: " ++ toString status)
    else
      match body.errors? with
      | some es =>
        if es.length > 0 then
          .error ("GraphQL error: " ++ String.intercalate ", " (es.map GQLError.message))
        else .ok body.data?
      | none => .ok body.data?

/-- makeRESTRequest (App.tsx 133-156): throws on a network error or a non-ok
status; otherwise returns the decoded JSON body. -/
def makeRESTRequest (o : FetchOutcome RestBody) : Except String RestBody :=
  match o with
  | .networkError msg => .error msg
  | .response ok status body =>
    if !ok then .error ("HTTP error! status: " ++ toString status)
    else .ok body

/-- The GraphQL arm of the inner try of sendMessage (App.tsx 184-205): invoke
makeGraphQLRequest and form data.choices as graphqlData?.chatCompletion.choices
with a [] default. When data is present but chatCompletion is absent, reading
.choices throws, and that TypeError is caught by the same inner catch. -/
def gqlDataChoices (o : FetchOutcome GraphQLResponse) : Except String (List Choice) :=
  match makeGraphQLRequest o with
  | .error e => .error e
  | .ok none => .ok []
  | .ok (some d) =>
    match d.chatCompletion? with
    | none => .error choicesUndefinedError
    | some cc => .ok (cc.choices?.getD [])

/-- Result of the inner try/catch (App.tsx 184-211): the choices field of the
value bound to data (absent when a successful REST body has no choices key),
whether the REST fallback was invoked, and the cause passed to console.warn. -/
structure TransportRun where
  result : Except String (Option (List Choice))
  restCalled : Bool
  warnLogged : Option String

/-- The inner try/catch of sendMessage (App.tsx 184-211): try the GraphQL path;
on any exception, record the cause and fall back to makeRESTRequest. -/
def runTransport (gql : FetchOutcome GraphQLResponse) (rest : FetchOutcome RestBody) :
    TransportRun :=
  match gqlDataChoices gql with
  | .ok cs => ⟨.ok (some cs), false, none⟩
  | .error e =>
    match makeRESTRequest rest with
    | .ok body => ⟨.ok body.choices?, true, some e⟩
    | .error e2 => ⟨.error e2, true, some e⟩

/-- App.tsx 216: data.choices[0]?.message?.content || fallback. Indexing an
absent choices array throws; the JS || makes an empty content string fall back
to the fixed placeholder exactly like an absent one. -/
def extractContent (choices? : Option (List Choice)) : Except String String :=
  match choices? with
  | none => .error indexUndefinedError
  | some cs =>
    match cs.head? with
    | none => .ok noReplyFallback
    | some c =>
      match c.message? with
      | none => .ok noReplyFallback
      | some m =>
        match m.content? with
        | none => .ok noReplyFallback
        | some s => .ok (if s = "" then noReplyFallback else s)

/-- Environment of one sendMessage run: the outcomes the network would give to
the two possible fetches, and the Date.now() readings (t1 when the user message
is created, t2 when the assistant message is created; the adjacent Date.now()
calls of one message literal are modelled as one reading). -/
structure SendEnv where
  gql : FetchOutcome GraphQLResponse
  rest : FetchOutcome RestBody
  t1 : Nat
  t2 : Nat

/-- The component state sendMessage touches: messages, input, isLoading. -/
structure AppState where
  messages : List Message
  input : String
  isLoading : Bool
deriving DecidableEq

/-- Observable result of one sendMessage run: the final state, whether each
endpoint was called, whether the configure-key alert fired, and the cause
passed to console.warn on GraphQL failure. -/
structure SendResult where
  state : AppState
  gqlCalled : Bool
  restCalled : Bool
  alerted : Bool
  warnLogged : Option String
deriving DecidableEq

/-- The user message literal of App.tsx 167-172. -/
def mkUserMessage (inp : String) (t : Nat) : Message :=
  ⟨toString t, .user, jsTrim inp, t⟩

/-- The content of the assistant message a run appends: the extracted reply on
success, or the synthesized error string of the outer catch (App.tsx 213-228). -/
def assistantContent (env : SendEnv) : String :=
  match (runTransport env.gql env.rest).result with
  | .error e => errorWrap e
  | .ok ch =>
    match extractContent ch with
    | .ok c => c
    | .error e => errorWrap e

/-- The assistant message literal appended at the end of a run, success or
error branch alike (App.tsx 213-218 and 223-228). -/
def mkAssistantMessage (env : SendEnv) : Message :=
  ⟨toString (env.t2 + 1), .assistant, assistantContent env, env.t2⟩

/-- sendMessage (App.tsx 158-233) as a pure run-to-completion function: the
guard on empty input or isLoading, the apiKey alert, the append of the user
message, the transport chain, and the append of the assistant message with the
finally-reset of isLoading. -/
def sendMessage (cfg : ProviderConfig) (env : SendEnv) (s : AppState) : SendResult :=
  if jsTrim s.input = "" || s.isLoading then
    ⟨s, false, false, false, none⟩
  else if cfg.apiKey = "" then
    ⟨s, false, false, true, none⟩
  else
    let tr := runTransport env.gql env.rest
    ⟨⟨s.messages ++ [mkUserMessage s.input env.t1, mkAssistantMessage env], "", false⟩,
      true, tr.restCalled, false, tr.warnLogged⟩

/-- One user interaction of a session: type into the input box, then trigger
sendMessage. -/
structure Step where
  typed : String
  env : SendEnv

/-- Applies one interaction to the component state. -/
def applyStep (cfg : ProviderConfig) (st : Step) (s : AppState) : AppState :=
  (sendMessage cfg st.env { s with input := st.typed }).state

/-- Runs a whole session: a sequence of interactions from an initial state. -/
def runSession (cfg : ProviderConfig) (steps : List Step) (s : AppState) : AppState :=
  steps.foldl (fun acc st => applyStep cfg st acc) s

/-- The failure condition of the structured-query attempt as the spec lists it:
non-success status, network error, or a decoded errors array with at least one
entry. -/
def gqlAttemptFailed (o : FetchOutcome GraphQLResponse) : Bool :=
  match o with
  | .networkError _ => true
  | .response ok _ body =>
    !ok ||
      (match body.errors? with
       | some es => decide (es.length > 0)
       | none => false)

/-- A choices list whose first entry carries no content field at all: the list
is empty, or its head has no message object, or the message has no content key. -/
def contentFieldAbsent (cs : List Choice) : Bool :=
  match cs.head? with
  | none => true
  | some c =>
    match c.message? with
    | none => true
    | some m => m.content?.isNone

/-- Numeric value of a decimal digit character. -/
def decodeDigit (c : Char) : Nat := c.toNat - '0'.toNat

/-- Decodes a list of decimal digit characters, most significant first. -/
def decodeDigits (cs : List Char) : Nat :=
  cs.foldl (fun a c => a * 10 + decodeDigit c) 0

/-- A two-interaction session whose clock readings are adjacent: the first run
reads Date.now() = 0 for both messages, the second reads 1 for the user message. -/
def collisionSession : AppState :=
  runSession ⟨"k", "https://api.openai.com/v1"⟩
    [⟨"a", ⟨.response true 200 ⟨none, none⟩, .networkError "x", 0, 0⟩⟩,
     ⟨"b", ⟨.response true 200 ⟨none, none⟩, .networkError "x", 1, 5⟩⟩]
    ⟨[], "", false⟩

/-- Helper: under valid preconditions, one sendMessage run reduces to the
two-message append with the transport observations. -/
theorem sendMessage_valid_eq (cfg : ProviderConfig) (env : SendEnv) (s : AppState)
    (h1 : jsTrim s.input ≠ "") (h2 : s.isLoading = false) (hk : cfg.apiKey ≠ "") :
    sendMessage cfg env s =
      ⟨⟨s.messages ++ [mkUserMessage s.input env.t1, mkAssistantMessage env], "", false⟩,
        true, (runTransport env.gql env.rest).restCalled, false,
        (runTransport env.gql env.rest).warnLogged⟩ := by
  unfold sendMessage
  simp [h1, h2, hk]

/-- C4: a call of submit with whitespace-only input, or while pending is true,
is a no-op: the state (messages, pending, input buffer) is unchanged, neither
endpoint is called, and no alert fires. -/
theorem submit_invalid_noop (cfg : ProviderConfig) (env : SendEnv) (s : AppState)
    (h : jsTrim s.input = "" ∨ s.isLoading = true) :
    sendMessage cfg env s = ⟨s, false, false, false, none⟩ := by
  unfold sendMessage
  rcases h with h | h <;> simp [h]

/-- Witness for submit_invalid_noop at whitespace-only input. -/
theorem submit_invalid_noop_witness :
    (jsTrim "   " = "" ∨ (false : Bool) = true) ∧
      sendMessage ⟨"k", "u"⟩ ⟨.networkError "down", .networkError "down", 0, 0⟩
          ⟨[], "   ", false⟩ =
        ⟨⟨[], "   ", false⟩, false, false, false, none⟩ :=
  ⟨Or.inl (by decide),
    submit_invalid_noop ⟨"k", "u"⟩ ⟨.networkError "down", .networkError "down", 0, 0⟩
      ⟨[], "   ", false⟩ (Or.inl (by decide))⟩

/-- C5 counterexample: a submit call with an empty credential but whitespace-only
input returns at the input guard, so no configuration prompt is produced even
though the credential is empty — the claim as stated fails on this input. -/
theorem emptyKey_no_prompt_on_blank_input :
    (ProviderConfig.mk "" "https://api.openai.com/v1").apiKey = "" ∧
      (sendMessage ⟨"", "https://api.openai.com/v1"⟩
          ⟨.networkError "down", .networkError "down", 0, 0⟩
          ⟨[], "   ", false⟩).alerted = false := by
  decide

/-- C5 amended: for a call that passes the input/pending guard (non-empty trimmed
input, pending false) and whose active credential is the empty string, submit
fires the configuration prompt, makes no network call, and leaves the state
(messages, pending, input buffer) unchanged. -/
theorem submit_emptyKey_prompts (cfg : ProviderConfig) (env : SendEnv) (s : AppState)
    (h1 : jsTrim s.input ≠ "") (h2 : s.isLoading = false) (hk : cfg.apiKey = "") :
    sendMessage cfg env s = ⟨s, false, false, true, none⟩ := by
  unfold sendMessage
  simp [h1, h2, hk]

/-- Witness for submit_emptyKey_prompts. -/
theorem submit_emptyKey_prompts_witness :
    jsTrim "hi" ≠ "" ∧
      sendMessage ⟨"", "u"⟩ ⟨.networkError "down", .networkError "down", 0, 0⟩
          ⟨[], "hi", false⟩ =
        ⟨⟨[], "hi", false⟩, false, false, true, none⟩ :=
  ⟨by decide,
    submit_emptyKey_prompts ⟨"", "u"⟩ ⟨.networkError "down", .networkError "down", 0, 0⟩
      ⟨[], "hi", false⟩ (by decide) rfl rfl⟩

/-- C6: with input "Hello" and a successful structured-query response carrying
content "Hi there", the run appends the user message "Hello" and an assistant
message whose content is exactly "Hi there", and the simple-form call is never
invoked — for every REST outcome and clock readings. -/
theorem scenario_hello_hi_there (rest : FetchOutcome RestBody) (t1 t2 : Nat) :
    ((sendMessage ⟨"sk", "https://api.openai.com/v1"⟩
          ⟨.response true 200
              ⟨some ⟨some ⟨some [⟨some ⟨some "assistant", some "Hi there"⟩⟩]⟩⟩, none⟩,
            rest, t1, t2⟩
          ⟨[], "Hello", false⟩).state.messages.map Message.content) = ["Hello", "Hi there"] ∧
      (sendMessage ⟨"sk", "https://api.openai.com/v1"⟩
          ⟨.response true 200
              ⟨some ⟨some ⟨some [⟨some ⟨some "assistant", some "Hi there"⟩⟩]⟩⟩, none⟩,
            rest, t1, t2⟩
          ⟨[], "Hello", false⟩).restCalled = false :=
  ⟨rfl, rfl⟩

/-- Helper: each failure condition the spec lists for the structured-query
attempt makes the GraphQL arm of the inner try throw. -/
theorem gqlAttemptFailed_error (o : FetchOutcome GraphQLResponse)
    (h : gqlAttemptFailed o = true) : ∃ e, gqlDataChoices o = .error e := by
  cases o with
  | networkError msg => exact ⟨msg, rfl⟩
  | response ok status body =>
    cases ok with
    | false => exact ⟨_, rfl⟩
    | true =>
      simp only [gqlAttemptFailed, Bool.not_true, Bool.false_or] at h
      cases hb : body.errors? with
      | none => rw [hb] at h; simp at h
      | some es =>
        rw [hb] at h
        simp only [decide_eq_true_eq] at h
        exact ⟨"GraphQL error: " ++ String.intercalate ", " (es.map GQLError.message),
          by simp [gqlDataChoices, makeGraphQLRequest, hb, h]⟩

/-- Helper: when the GraphQL arm throws, the inner catch performs the REST call
and records the thrown cause. -/
theorem runTransport_fallback (g : FetchOutcome GraphQLResponse) (r : FetchOutcome RestBody)
    (e : String) (hg : gqlDataChoices g = .error e) :
    (runTransport g r).restCalled = true ∧ (runTransport g r).warnLogged = some e := by
  cases hr : makeRESTRequest r <;> simp [runTransport, hg, hr]

/-- C1: in a valid send, whenever the structured-query attempt fails — non-success
status, network error, or a decoded errors array with at least one entry — the
simple-form call is attempted, and the structured-query cause is recorded
locally (passed to console.warn) rather than propagated at that point. -/
theorem gql_failure_attempts_rest (cfg : ProviderConfig) (env : SendEnv) (s : AppState)
    (h1 : jsTrim s.input ≠ "") (h2 : s.isLoading = false) (hk : cfg.apiKey ≠ "")
    (hg : gqlAttemptFailed env.gql = true) :
    (sendMessage cfg env s).restCalled = true ∧
      ∃ e, gqlDataChoices env.gql = .error e ∧
        (sendMessage cfg env s).warnLogged = some e := by
  obtain ⟨e, he⟩ := gqlAttemptFailed_error env.gql hg
  obtain ⟨hrest, hwarn⟩ := runTransport_fallback env.gql env.rest e he
  rw [sendMessage_valid_eq cfg env s h1 h2 hk]
  exact ⟨hrest, e, he, hwarn⟩

/-- Witness for gql_failure_attempts_rest: a decoded errors array with one entry. -/
theorem gql_failure_attempts_rest_witness :
    jsTrim "hi" ≠ "" ∧
      gqlAttemptFailed (.response true 200 ⟨none, some [⟨"boom"⟩]⟩) = true ∧
      ((sendMessage ⟨"sk", "u"⟩
            ⟨.response true 200 ⟨none, some [⟨"boom"⟩]⟩,
              .response true 200 ⟨some []⟩, 0, 0⟩
            ⟨[], "hi", false⟩).restCalled = true ∧
        ∃ e, gqlDataChoices (.response true 200 ⟨none, some [⟨"boom"⟩]⟩) = .error e ∧
          (sendMessage ⟨"sk", "u"⟩
              ⟨.response true 200 ⟨none, some [⟨"boom"⟩]⟩,
                .response true 200 ⟨some []⟩, 0, 0⟩
              ⟨[], "hi", false⟩).warnLogged = some e) :=
  ⟨by decide, by decide,
    gql_failure_attempts_rest ⟨"sk", "u"⟩
      ⟨.response true 200 ⟨none, some [⟨"boom"⟩]⟩, .response true 200 ⟨some []⟩, 0, 0⟩
      ⟨[], "hi", false⟩ (by decide) rfl (by decide) (by decide)⟩

/-- C2: when the structured-query attempt and the simple-form call both fail,
the appended assistant message embeds exactly the simple-form failure's cause,
and the structured-query cause is discarded from the surfaced message. -/
theorem both_fail_surfaces_rest_cause (cfg : ProviderConfig) (env : SendEnv) (s : AppState)
    (e1 e2 : String)
    (h1 : jsTrim s.input ≠ "") (h2 : s.isLoading = false) (hk : cfg.apiKey ≠ "")
    (hg : gqlDataChoices env.gql = .error e1) (hr : makeRESTRequest env.rest = .error e2) :
    (sendMessage cfg env s).state.messages.getLast?.map Message.content
      = some (errorWrap e2) := by
  rw [sendMessage_valid_eq cfg env s h1 h2 hk]
  simp [mkAssistantMessage, assistantContent, runTransport, hg, hr]

/-- Witness for both_fail_surfaces_rest_cause: GraphQL 500 and REST 404. -/
theorem both_fail_surfaces_rest_cause_witness :
    jsTrim "hi" ≠ "" ∧
      gqlDataChoices (.response false 500 ⟨none, none⟩)
        = .error "HTTP error! status: 500" ∧
      makeRESTRequest (.response false 404 ⟨none⟩) = .error "HTTP error! status: 404" ∧
      (sendMessage ⟨"sk", "u"⟩
            ⟨.response false 500 ⟨none, none⟩, .response false 404 ⟨none⟩, 0, 0⟩
            ⟨[], "hi", false⟩).state.messages.getLast?.map Message.content
        = some (errorWrap "HTTP error! status: 404") :=
  ⟨by decide, rfl, rfl,
    both_fail_surfaces_rest_cause ⟨"sk", "u"⟩
      ⟨.response false 500 ⟨none, none⟩, .response false 404 ⟨none⟩, 0, 0⟩
      ⟨[], "hi", false⟩ "HTTP error! status: 500" "HTTP error! status: 404"
      (by decide) rfl (by decide) rfl rfl⟩

/-- C3: a valid submit (non-empty trimmed input, configured credential, pending
initially false) appends exactly one user message carrying the trimmed input
followed by exactly one assistant message, and pending is false again at the
end of the run, whatever the transport outcome. -/
theorem submit_appends_user_then_assistant (cfg : ProviderConfig) (env : SendEnv) (s : AppState)
    (h1 : jsTrim s.input ≠ "") (h2 : s.isLoading = false) (hk : cfg.apiKey ≠ "") :
    (sendMessage cfg env s).state.messages
        = s.messages ++ [mkUserMessage s.input env.t1, mkAssistantMessage env] ∧
      (mkUserMessage s.input env.t1).role = .user ∧
      (mkUserMessage s.input env.t1).content = jsTrim s.input ∧
      (mkAssistantMessage env).role = .assistant ∧
      (sendMessage cfg env s).state.isLoading = false := by
  rw [sendMessage_valid_eq cfg env s h1 h2 hk]
  exact ⟨rfl, rfl, rfl, rfl, rfl⟩

/-- Witness for submit_appends_user_then_assistant. -/
theorem submit_appends_user_then_assistant_witness :
    jsTrim " hi " ≠ "" ∧
      ((sendMessage ⟨"sk", "u"⟩ ⟨.networkError "down", .networkError "down", 3, 4⟩
            ⟨[], " hi ", false⟩).state.messages
          = [] ++ [mkUserMessage " hi " 3,
              mkAssistantMessage ⟨.networkError "down", .networkError "down", 3, 4⟩] ∧
        (mkUserMessage " hi " 3).role = .user ∧
        (mkUserMessage " hi " 3).content = jsTrim " hi " ∧
        (mkAssistantMessage ⟨.networkError "down", .networkError "down", 3, 4⟩).role
          = .assistant ∧
        (sendMessage ⟨"sk", "u"⟩ ⟨.networkError "down", .networkError "down", 3, 4⟩
            ⟨[], " hi ", false⟩).state.isLoading = false) :=
  ⟨by decide,
    submit_appends_user_then_assistant ⟨"sk", "u"⟩
      ⟨.networkError "down", .networkError "down", 3, 4⟩
      ⟨[], " hi ", false⟩ (by decide) rfl (by decide)⟩

/-- C7 counterexample: a successful simple-form response whose decoded body has
no choices array at all lacks the expected choices[0].message.content field,
yet the run surfaces the synthesized TypeError message of the outer catch, not
the fixed "no reply received" placeholder. -/
theorem missing_choices_array_not_placeholder :
    ((sendMessage ⟨"sk", "u"⟩
          ⟨.response false 500 ⟨none, none⟩, .response true 200 ⟨none⟩, 0, 0⟩
          ⟨[], "Hello", false⟩).state.messages.getLast?.map Message.content
        = some (errorWrap indexUndefinedError)) ∧
      errorWrap indexUndefinedError ≠ noReplyFallback := by
  decide

/-- Helper: extracting from a present choices list whose first entry carries no
content field yields the fixed placeholder. -/
theorem extractContent_absent (cs : List Choice) (h : contentFieldAbsent cs = true) :
    extractContent (some cs) = .ok noReplyFallback := by
  cases cs with
  | nil => rfl
  | cons c tl =>
    cases hm : c.message? with
    | none => simp [extractContent, hm]
    | some m =>
      cases hc : m.content? with
      | none => simp [extractContent, hm, hc]
      | some str =>
        exfalso
        simp [contentFieldAbsent, hm, hc] at h

/-- C7 amended: for every successful response, from either call, whose decoded
body does carry a choices array but lacks the choices[0].message.content field
(empty choices, missing message, or missing content), the operation does not
fail: the assistant message carries the fixed "no reply received" placeholder.
When the choices array itself is absent, the code instead raises a TypeError
that the outer catch converts to a synthesized error message. -/
theorem present_choices_missing_content_placeholder (cfg : ProviderConfig) (env : SendEnv)
    (s : AppState) (cs : List Choice)
    (h1 : jsTrim s.input ≠ "") (h2 : s.isLoading = false) (hk : cfg.apiKey ≠ "")
    (hres : (runTransport env.gql env.rest).result = .ok (some cs))
    (habs : contentFieldAbsent cs = true) :
    (sendMessage cfg env s).state.messages.getLast?.map Message.content
      = some noReplyFallback := by
  rw [sendMessage_valid_eq cfg env s h1 h2 hk]
  simp [mkAssistantMessage, assistantContent, hres, extractContent_absent cs habs]

/-- Witness for present_choices_missing_content_placeholder: a successful REST
body whose single choice has no message object. -/
theorem present_choices_missing_content_placeholder_witness :
    jsTrim "hi" ≠ "" ∧
      (runTransport (.response false 500 ⟨none, none⟩)
            (.response true 200 ⟨some [⟨none⟩]⟩)).result = .ok (some [⟨none⟩]) ∧
      contentFieldAbsent [⟨none⟩] = true ∧
      (sendMessage ⟨"sk", "u"⟩
            ⟨.response false 500 ⟨none, none⟩, .response true 200 ⟨some [⟨none⟩]⟩, 0, 0⟩
            ⟨[], "hi", false⟩).state.messages.getLast?.map Message.content
        = some noReplyFallback :=
  ⟨by decide, rfl, by decide,
    present_choices_missing_content_placeholder ⟨"sk", "u"⟩
      ⟨.response false 500 ⟨none, none⟩, .response true 200 ⟨some [⟨none⟩]⟩, 0, 0⟩
      ⟨[], "hi", false⟩ [⟨none⟩] (by decide) rfl (by decide) rfl (by decide)⟩

/-- C10: when a successful completion response carries a content field equal to
the empty string, the appended assistant message carries the fixed placeholder,
not the empty string: the JS || treats empty content like absent content. -/
theorem empty_content_gets_placeholder (cfg : ProviderConfig) (env : SendEnv)
    (s : AppState) (cs : List Choice) (c : Choice) (m : ChoiceMessage)
    (h1 : jsTrim s.input ≠ "") (h2 : s.isLoading = false) (hk : cfg.apiKey ≠ "")
    (hres : (runTransport env.gql env.rest).result = .ok (some cs))
    (hh : cs.head? = some c) (hm : c.message? = some m) (hc : m.content? = some "") :
    (sendMessage cfg env s).state.messages.getLast?.map Message.content
      = some noReplyFallback := by
  rw [sendMessage_valid_eq cfg env s h1 h2 hk]
  simp [mkAssistantMessage, assistantContent, hres, extractContent, hh, hm, hc]

/-- Witness for empty_content_gets_placeholder: a successful GraphQL reply whose
content is the empty string. -/
theorem empty_content_gets_placeholder_witness :
    jsTrim "hi" ≠ "" ∧
      (runTransport
            (.response true 200 ⟨some ⟨some ⟨some [⟨some ⟨some "assistant", some ""⟩⟩]⟩⟩, none⟩)
            (.networkError "down")).result
        = .ok (some [⟨some ⟨some "assistant", some ""⟩⟩]) ∧
      (sendMessage ⟨"sk", "u"⟩
            ⟨.response true 200 ⟨some ⟨some ⟨some [⟨some ⟨some "assistant", some ""⟩⟩]⟩⟩, none⟩,
              .networkError "down", 0, 0⟩
            ⟨[], "hi", false⟩).state.messages.getLast?.map Message.content
        = some noReplyFallback :=
  ⟨by decide, rfl,
    empty_content_gets_placeholder ⟨"sk", "u"⟩
      ⟨.response true 200 ⟨some ⟨some ⟨some [⟨some ⟨some "assistant", some ""⟩⟩]⟩⟩, none⟩,
        .networkError "down", 0, 0⟩
      ⟨[], "hi", false⟩ [⟨some ⟨some "assistant", some ""⟩⟩]
      ⟨some ⟨some "assistant", some ""⟩⟩ ⟨some "assistant", some ""⟩
      (by decide) rfl (by decide) rfl rfl rfl rfl⟩

/-- Helper: one sendMessage run only ever extends the messages sequence at the
end. -/
theorem sendMessage_extends (cfg : ProviderConfig) (env : SendEnv) (s : AppState) :
    ∃ t, (sendMessage cfg env s).state.messages = s.messages ++ t := by
  unfold sendMessage
  split
  · exact ⟨[], by simp⟩
  · split
    · exact ⟨[], by simp⟩
    · exact ⟨[mkUserMessage s.input env.t1, mkAssistantMessage env], rfl⟩

/-- C8: the conversation is append-only: after any sequence of interactions,
the prior messages sequence is an initial segment of the new one — every step
either leaves the sequence unchanged or extends it at the end. -/
theorem session_append_only (cfg : ProviderConfig) (steps : List Step) (s : AppState) :
    ∃ t, (runSession cfg steps s).messages = s.messages ++ t := by
  induction steps generalizing s with
  | nil => exact ⟨[], by simp [runSession]⟩
  | cons st tl ih =>
    obtain ⟨t2, h2⟩ := ih (applyStep cfg st s)
    obtain ⟨t1, h1⟩ := sendMessage_extends cfg st.env { s with input := st.typed }
    refine ⟨t1 ++ t2, ?_⟩
    have hstep : (applyStep cfg st s).messages = s.messages ++ t1 := h1
    calc (runSession cfg (st :: tl) s).messages
        = (runSession cfg tl (applyStep cfg st s)).messages := rfl
      _ = (applyStep cfg st s).messages ++ t2 := h2
      _ = s.messages ++ t1 ++ t2 := by rw [hstep]
      _ = s.messages ++ (t1 ++ t2) := by rw [List.append_assoc]

/-- Decimal digit characters decode back to their value. -/
theorem decodeDigit_digitChar (d : Nat) (h : d < 10) :
    decodeDigit (Nat.digitChar d) = d := by
  interval_cases d <;> rfl

/-- Decoding the digit list built by Nat.toDigitsCore folds the remaining
accumulator on top of the encoded number. -/
theorem toDigitsCore_decode (fuel : Nat) :
    ∀ (n : Nat) (acc : List Char), n ≤ fuel →
      decodeDigits (Nat.toDigitsCore 10 (fuel + 1) n acc)
        = List.foldl (fun a c => a * 10 + decodeDigit c) n acc := by
  induction fuel with
  | zero =>
    intro n acc hn
    have hn0 : n = 0 := Nat.le_zero.mp hn
    subst hn0
    have hd : decodeDigit (Nat.digitChar (0 % 10)) = 0 := by decide
    simp [Nat.toDigitsCore, decodeDigits, List.foldl, hd]
  | succ f ih =>
    intro n acc hn
    show decodeDigits (Nat.toDigitsCore 10 (f + 2) n acc) = _
    rw [Nat.toDigitsCore]
    by_cases hdiv : n / 10 = 0
    · have hlt : n < 10 := by omega
      simp only [hdiv, if_pos]
      have : decodeDigit (Nat.digitChar (n % 10)) = n % 10 :=
        decodeDigit_digitChar _ (Nat.mod_lt _ (by omega))
      simp [decodeDigits, List.foldl, this]
      congr 1
      omega
    · simp only [hdiv, if_neg, ite_false]
      have hle : n / 10 ≤ f := by omega
      rw [ih (n / 10) (Nat.digitChar (n % 10) :: acc) hle]
      simp only [List.foldl]
      congr 1
      rw [decodeDigit_digitChar _ (Nat.mod_lt _ (by omega))]
      omega

/-- The decimal rendering produced by toString on Nat decodes back to the
number. -/
theorem decode_toString (n : Nat) : decodeDigits (toString n).data = n := by
  have h := toDigitsCore_decode n n [] (Nat.le_refl n)
  simpa [List.foldl] using h

/-- toString is injective on Nat. -/
theorem natToString_inj {a b : Nat} (h : toString a = toString b) : a = b := by
  have := congrArg (fun s => decodeDigits s.data) h
  simpa [decode_toString] using this

/-- C9 counterexample: in a session whose clock readings are adjacent, the
assistant message of the first run and the user message of the second run are
distinct messages carrying the same id, so ids are not unique tokens. -/
theorem message_ids_collide :
    collisionSession.messages[1]?.map Message.id
        = collisionSession.messages[2]?.map Message.id ∧
      collisionSession.messages[1]? ≠ collisionSession.messages[2]? ∧
      (collisionSession.messages[1]?).isSome = true := by
  decide

/-- C9 amended: within one valid submit run whose second clock reading is not
earlier than the first, the ids of the user message and the assistant message
it appends differ; across runs, ids can repeat when the clock readings of two
runs are adjacent. -/
theorem within_run_ids_distinct (cfg : ProviderConfig) (env : SendEnv) (s : AppState)
    (h1 : jsTrim s.input ≠ "") (h2 : s.isLoading = false) (hk : cfg.apiKey ≠ "")
    (hts : env.t1 ≤ env.t2) :
    (sendMessage cfg env s).state.messages
        = s.messages ++ [mkUserMessage s.input env.t1, mkAssistantMessage env] ∧
      (mkUserMessage s.input env.t1).id ≠ (mkAssistantMessage env).id := by
  rw [sendMessage_valid_eq cfg env s h1 h2 hk]
  refine ⟨rfl, fun hid => ?_⟩
  have : env.t1 = env.t2 + 1 := natToString_inj hid
  omega

/-- Witness for within_run_ids_distinct. -/
theorem within_run_ids_distinct_witness :
    jsTrim "hi" ≠ "" ∧ (3 : Nat) ≤ 3 ∧
      ((sendMessage ⟨"sk", "u"⟩ ⟨.networkError "down", .networkError "down", 3, 3⟩
            ⟨[], "hi", false⟩).state.messages
          = [] ++ [mkUserMessage "hi" 3,
              mkAssistantMessage ⟨.networkError "down", .networkError "down", 3, 3⟩] ∧
        (mkUserMessage "hi" 3).id
          ≠ (mkAssistantMessage ⟨.networkError "down", .networkError "down", 3, 3⟩).id) :=
  ⟨by decide, Nat.le_refl 3,
    within_run_ids_distinct ⟨"sk", "u"⟩ ⟨.networkError "down", .networkError "down", 3, 3⟩
      ⟨[], "hi", false⟩ (by decide) rfl (by decide) (Nat.le_refl 3)⟩

end ZedAI
